import Mathlib

/-!
Shallow embedding of the session/emulator core of the `mcp-pyboy` repository
(`src/mcp_pyboy/session.py`, `src/mcp_server/emulator.py`, and the
`press_button` tool of `src/mcp_pyboy/server.py`), together with proofs and
refutations of the specification's claims about it.

External collaborators (the filesystem, the PyBoy engine, the SHA-256
digest) are modelled as a fixed environment `Env`; engine instances are
identified by fresh natural-number ids drawn from a counter that is threaded
through every operation.  Time (`time.time()`) is an explicit `Nat`
parameter.  All code is sequential: the Python `asyncio.Lock` serializes the
operations, so a run is a list of operations applied in order.
-/

namespace MCPPyBoy

/-! ### String helpers (modelling Python `str`/`pathlib` primitives) -/

/-- Python `str.lower` (ASCII, which is all the source ever feeds it). -/
def strLower (s : String) : String := String.mk (s.toList.map Char.toLower)

/-- Python `str.upper` (ASCII). -/
def strUpper (s : String) : String := String.mk (s.toList.map Char.toUpper)

/-- Python `s[:n]`. -/
def strTake (n : Nat) (s : String) : String := String.mk (s.toList.take n)

/-- `pre` is a prefix of `l` (Boolean, structural). -/
def isPrefixOfB : List Char → List Char → Bool
  | [], _ => true
  | _ :: _, [] => false
  | a :: as, b :: bs => a == b && isPrefixOfB as bs

/-- Python `pat in s` on the underlying character lists. -/
def containsSubList : List Char → List Char → Bool
  | [], pat => pat.isEmpty
  | a :: as, pat => isPrefixOfB pat (a :: as) || containsSubList as pat

/-- Python substring test `pat in s`. -/
def containsSub (s pat : String) : Bool :=
  containsSubList s.toList pat.toList

/-- Split a character list on a separator character. -/
def splitOnChar (c : Char) : List Char → List (List Char)
  | [] => [[]]
  | a :: as =>
    match splitOnChar c as with
    | [] => if a == c then [[], []] else [[a]]
    | g :: gs => if a == c then [] :: g :: gs else (a :: g) :: gs

/-- `pathlib.Path(p).name`: the final path component. -/
def pathName (p : String) : String :=
  String.mk ((splitOnChar '/' p.toList).getLastD [])

/-- Index of the last occurrence of `c` in `l`, if any. -/
def lastIdxOf (c : Char) (l : List Char) : Option Nat :=
  (l.enum.filter (fun x => x.2 == c)).getLast?.map (·.1)

/-- `pathlib.Path(p).suffix`: the extension of the final component,
including the dot; empty unless the last dot is at an index `i` with
`0 < i < len - 1` (this is exactly `pathlib`'s rule). -/
def pathSuffix (p : String) : String :=
  let name := (pathName p).toList
  match lastIdxOf '.' name with
  | none => ""
  | some i => if 0 < i ∧ i < name.length - 1 then String.mk (name.drop i) else ""

/-! ### Environment: filesystem, engine, digest -/

/-- The fixed external world an operation runs against:
  * `fs` — the filesystem, an association list from path to file bytes
    (absent key = the file does not exist);
  * `readErr` — `some msg` when opening/reading the file for hashing raises
    an unexpected `OSError` with message `msg`;
  * `construct` — `some msg` when `PyBoy(path, ...)` raises with message
    `msg`, `none` when construction succeeds;
  * `digest` — the SHA-256 hex digest as a function of the bytes absorbed;
  * `stopFail` — whether the engine instance with a given id raises from its
    underlying `stop()` (always swallowed by the wrapper). -/
structure Env where
  fs : List (String × List Nat)
  readErr : String → Option String
  construct : String → Option String
  digest : List Nat → String
  stopFail : Nat → Bool

/-- File content at `p`, when the file exists. -/
def Env.content (env : Env) (p : String) : Option (List Nat) :=
  List.lookup p env.fs

/-! ### `PyBoyEmulator` (src/mcp_server/emulator.py) -/

/-- Error kinds raised by the emulator wrapper: `ROMError` and
`EmulatorStateError`, each carrying its message. -/
inductive EmuError
  | romError (msg : String)
  | stateError (msg : String)
deriving DecidableEq, Repr

/-- The message carried by an emulator error. -/
def EmuError.msg : EmuError → String
  | .romError m => m
  | .stateError m => m

/-- Whether an emulator error is a `ROMError`. -/
def EmuError.isRom : EmuError → Bool
  | .romError _ => true
  | .stateError _ => false

/-- The `PyBoyEmulator` wrapper state: `headless`, the engine instance
(`pyboy`, modelled by its id), `current_rom_path`, `is_running`. -/
structure PyBoyEmulator where
  headless : Bool
  pyboy : Option Nat
  current_rom_path : Option String
  is_running : Bool
deriving DecidableEq, Repr

/-- `PyBoyEmulator.__init__`. -/
def PyBoyEmulator.init (headless : Bool) : PyBoyEmulator :=
  { headless := headless, pyboy := none, current_rom_path := none, is_running := false }

/-- `PyBoyEmulator.is_ready`: running and an engine instance is present. -/
def PyBoyEmulator.is_ready (e : PyBoyEmulator) : Bool :=
  e.is_running && e.pyboy.isSome

/-- `PyBoyEmulator.stop`: if an engine instance exists its `stop()` is
attempted and any failure is swallowed (the `finally` clears `pyboy`
regardless of `env.stopFail`); then `current_rom_path` is cleared and
`is_running` set to false, unconditionally. -/
def PyBoyEmulator.stop (_env : Env) (e : PyBoyEmulator) : PyBoyEmulator :=
  { e with pyboy := none, current_rom_path := none, is_running := false }

/-- `PyBoyEmulator.load_rom`: validate existence, then extension, stop any
current engine, construct a new engine instance; on construction failure
clear the fields and classify the lowercased message into `ROMError`
(corrupt/invalid or permission/access) or `EmulatorStateError`; on success
record the instance, the path, and `is_running = true`.  Returns the raised
error (if any), the mutated wrapper, and the updated id counter. -/
def PyBoyEmulator.load_rom (env : Env) (nid : Nat) (e : PyBoyEmulator) (p : String) :
    Except EmuError Unit × PyBoyEmulator × Nat :=
  if (env.content p).isNone then
    (.error (.romError ("ROM file not found: " ++ p ++
      ". Check the file path and ensure the ROM file exists.")), e, nid)
  else if ¬ (strLower (pathSuffix p) = ".gb" ∨ strLower (pathSuffix p) = ".gbc") then
    (.error (.romError ("Invalid ROM file extension: " ++ pathSuffix p ++
      ". Only .gb and .gbc files are supported.")), e, nid)
  else
    let e1 := if e.pyboy.isSome then e.stop env else e
    match env.construct p with
    | none =>
      (.ok (), { e1 with pyboy := some nid, current_rom_path := some p, is_running := true },
        nid + 1)
    | some m =>
      let e2 : PyBoyEmulator :=
        { e1 with pyboy := none, current_rom_path := none, is_running := false }
      let ml := strLower m
      if containsSub ml "invalid rom" || containsSub ml "corrupt" then
        (.error (.romError ("ROM file appears to be corrupted or invalid: " ++ pathName p ++
          ". Try a different ROM file or verify the file is not damaged.")), e2, nid)
      else if containsSub ml "permission" || containsSub ml "access" then
        (.error (.romError ("Cannot access ROM file: " ++ p ++
          ". Check file permissions and ensure it is not in use by another program.")), e2, nid)
      else
        (.error (.stateError ("Failed to initialize emulator with ROM: " ++ m ++
          ". This might be a PyBoy compatibility issue or system resource problem.")), e2, nid)

/-! ### ROM fingerprint (`GameSession._calculate_rom_hash`) -/

/-- The successive 4096-byte blocks `f.read(4096)` yields for a file with
the given bytes (fuel-driven so the kernel can evaluate it; the fuel is
instantiated with the content length, which always suffices). -/
def chunksFuel : Nat → List Nat → List (List Nat)
  | 0, _ => []
  | _ + 1, [] => []
  | fuel + 1, l => l.take 4096 :: chunksFuel fuel (l.drop 4096)

/-- The 4096-byte blocks of a byte list. -/
def chunks (l : List Nat) : List (List Nat) := chunksFuel l.length l

/-- `GameSession._calculate_rom_hash` on the file bytes: feed each 4096-byte
block to the hash object (absorbing = appending to the absorbed stream),
take the hex digest, and keep its first 16 characters. -/
def calculate_rom_hash (digest : List Nat → String) (content : List Nat) : String :=
  strTake 16 (digest ((chunks content).foldl (· ++ ·) []))

/-- The fingerprint `load_rom` computes for path `p` (empty content is
irrelevant: the lookup is only used after the existence check). -/
def Env.romHash (env : Env) (p : String) : String :=
  calculate_rom_hash env.digest ((env.content p).getD [])

/-! ### `GameSession` (src/mcp_pyboy/session.py) -/

/-- `SessionState` from session.py. -/
inductive SessionState
  | IDLE | LOADING | RUNNING | PAUSED | ERROR | CRASHED
deriving DecidableEq, Repr

/-- The `value` string of a session state. -/
def SessionState.value : SessionState → String
  | .IDLE => "idle"
  | .LOADING => "loading"
  | .RUNNING => "running"
  | .PAUSED => "paused"
  | .ERROR => "error"
  | .CRASHED => "crashed"

/-- The mutable fields of `GameSession`. -/
structure GameSession where
  emulator : Option PyBoyEmulator
  state : SessionState
  current_rom_path : Option String
  current_rom_hash : Option String
  session_start_time : Option Nat
  last_activity_time : Option Nat
  error_message : Option String
  total_frames : Nat
  total_inputs : Nat
  crash_count : Nat
deriving DecidableEq, Repr

/-- `GameSession.__init__`. -/
def GameSession.init : GameSession :=
  { emulator := none, state := .IDLE, current_rom_path := none, current_rom_hash := none,
    session_start_time := none, last_activity_time := none, error_message := none,
    total_frames := 0, total_inputs := 0, crash_count := 0 }

/-- `GameSession.is_active`. -/
def GameSession.is_active (s : GameSession) : Bool :=
  s.state == .RUNNING || s.state == .PAUSED

/-- Whether the session's emulator handle is present and `is_ready()`. -/
def GameSession.readyEmulator (s : GameSession) : Bool :=
  match s.emulator with
  | some e => e.is_ready
  | none => false

/-- The success payload `load_rom` returns. -/
structure RomInfo where
  success : Bool
  rom_name : String
  rom_hash : String
  session_state : String
  message : String
deriving DecidableEq, Repr

/-- Lines 113–119 of session.py: the emulator handle the load proceeds
with — a fresh `PyBoyEmulator(headless=True)` when none exists yet or the
new fingerprint differs from the recorded one (any existing handle being
stopped and discarded first), the existing handle otherwise. -/
def GameSession.selectEmulator (s : GameSession) (h : String) : PyBoyEmulator :=
  if s.emulator.isNone ∨ some h ≠ s.current_rom_hash then PyBoyEmulator.init true
  else s.emulator.getD (PyBoyEmulator.init true)

/-- `GameSession.load_rom`: clear the error message, set `LOADING`, check
existence (`ROMError` → `ERROR`), hash the file (an unexpected read error →
`CRASHED`, `crash_count + 1`), pick the handle via `selectEmulator`,
delegate to `PyBoyEmulator.load_rom`; on success record path, fingerprint,
`RUNNING`, both timestamps `:= now`, counters `:= 0`; on
`ROMError`/`EmulatorStateError` record the message and `ERROR`.  Raised
`SessionError`s are the `.error` results. -/
def GameSession.load_rom (env : Env) (now : Nat) (s : GameSession) (nid : Nat) (p : String) :
    Except String RomInfo × GameSession × Nat :=
  let s0 : GameSession := { s with error_message := none, state := .LOADING }
  if (env.content p).isNone then
    let msg := "ROM file not found: " ++ p ++
      ". Check the file path and ensure the ROM file exists."
    (.error ("Failed to load ROM: " ++ msg),
      { s0 with state := .ERROR, error_message := some msg }, nid)
  else
    match env.readErr p with
    | some m =>
      (.error ("Session crashed while loading ROM. Try again or restart the server. Error: "
          ++ m),
        { s0 with
          state := .CRASHED
          error_message := some ("Unexpected error: " ++ m)
          crash_count := s0.crash_count + 1 }, nid)
    | none =>
      let h := env.romHash p
      let emu := s0.selectEmulator h
      match PyBoyEmulator.load_rom env nid emu p with
      | (.ok _, emu2, nid2) =>
        (.ok {
            success := true
            rom_name := pathName p
            rom_hash := h
            session_state := SessionState.RUNNING.value
            message := "ROM " ++ pathName p ++ " loaded and running" },
          { s0 with
            emulator := some emu2
            current_rom_path := some p
            current_rom_hash := some h
            state := .RUNNING
            session_start_time := some now
            last_activity_time := some now
            total_frames := 0
            total_inputs := 0 }, nid2)
      | (.error e, emu2, nid2) =>
        (.error ("Failed to load ROM: " ++ e.msg),
          { s0 with
            emulator := some emu2
            state := .ERROR
            error_message := some e.msg }, nid2)

/-- `GameSession.pause`: `RUNNING → PAUSED`, otherwise a no-op. -/
def GameSession.pause (s : GameSession) : GameSession :=
  if s.state = .RUNNING then { s with state := .PAUSED } else s

/-- `GameSession.resume`: `PAUSED → RUNNING`, otherwise a no-op. -/
def GameSession.resume (s : GameSession) : GameSession :=
  if s.state = .PAUSED then { s with state := .RUNNING } else s

/-- `GameSession.stop`: attempt to stop the emulator (its own wrapper and
the surrounding `try` both swallow failures), clear the handle, set `IDLE`,
and clear path, fingerprint, session-start time and error message. -/
def GameSession.stop (_env : Env) (s : GameSession) : GameSession :=
  { s with
    emulator := none
    state := .IDLE
    current_rom_path := none
    current_rom_hash := none
    session_start_time := none
    error_message := none }

/-- `GameSession.ensure_running`: immediate success in `RUNNING`,
auto-resume from `PAUSED`, `SessionError` in `IDLE`/`LOADING`/`ERROR`; in
`CRASHED` retry `load_rom` with the remembered path (wrapping any failure),
or fail when no path is remembered. -/
def GameSession.ensure_running (env : Env) (now : Nat) (s : GameSession) (nid : Nat) :
    Except String Unit × GameSession × Nat :=
  match s.state with
  | .RUNNING => (.ok (), s, nid)
  | .PAUSED => (.ok (), s.resume, nid)
  | .IDLE => (.error "No ROM is loaded. Use load_rom() to load a game first.", s, nid)
  | .LOADING => (.error "ROM is still loading. Please wait a moment and try again.", s, nid)
  | .ERROR =>
    (.error ("Session is in error state: " ++ s.error_message.getD "None" ++
      ". Try loading the ROM again or restart the server."), s, nid)
  | .CRASHED =>
    match s.current_rom_path with
    | some p =>
      match GameSession.load_rom env now s nid p with
      | (.ok _, s2, nid2) => (.ok (), s2, nid2)
      | (.error e, s2, nid2) =>
        (.error ("Failed to recover crashed session: " ++ e ++
          ". Server restart may be required."), s2, nid2)
    | none =>
      (.error "Session crashed with no ROM to recover. Load a new ROM to continue.", s, nid)

/-- `GameSession.get_emulator`: `ensure_running`, then the defensive
readiness check, then refresh `last_activity_time` and return the handle. -/
def GameSession.get_emulator (env : Env) (now : Nat) (s : GameSession) (nid : Nat) :
    Except String PyBoyEmulator × GameSession × Nat :=
  match GameSession.ensure_running env now s nid with
  | (.error e, s2, nid2) => (.error e, s2, nid2)
  | (.ok _, s2, nid2) =>
    match s2.emulator with
    | some e =>
      if e.is_ready then (.ok e, { s2 with last_activity_time := some now }, nid2)
      else
        (.error "Emulator is not ready. This should not happen - please report this issue.",
          s2, nid2)
    | none =>
      (.error "Emulator is not ready. This should not happen - please report this issue.",
        s2, nid2)

/-- `GameSession.record_frame_advance`. -/
def GameSession.record_frame_advance (now : Nat) (frames : Nat) (s : GameSession) :
    GameSession :=
  { s with total_frames := s.total_frames + frames, last_activity_time := some now }

/-- `GameSession.record_input`. -/
def GameSession.record_input (now : Nat) (s : GameSession) : GameSession :=
  { s with total_inputs := s.total_inputs + 1, last_activity_time := some now }

/-! ### The `press_button` tool (src/mcp_pyboy/server.py) -/

/-- The valid button names of `press_button` (upper-case keys of its
`valid_buttons` table). -/
def validButtons : List String :=
  ["A", "B", "START", "SELECT", "UP", "DOWN", "LEFT", "RIGHT"]

/-- The success payload of `press_button`. -/
structure PressResult where
  success : Bool
  message : String
  button : String
  duration : Int
  frames_advanced : Int
deriving DecidableEq, Repr

/-- `press_button` from server.py: validate the button name, then
`duration < 1`, then `duration > 60` (each a `ValueError` raised before the
session is touched); then obtain the emulator via the session, run the
press/tick loop on the engine, and record the metrics.  `SessionError`s are
surfaced as `ValueError(str(e))`; an `EmulatorStateError` from
`get_pyboy_instance` is wrapped in the generic failure message. -/
def press_button (env : Env) (now : Nat) (button : String) (duration : Int)
    (s : GameSession) (nid : Nat) : Except String PressResult × GameSession × Nat :=
  let bu := strUpper button
  if ¬ validButtons.contains bu then
    (.error ("Invalid button " ++ button ++
      ". Valid buttons are: A, B, START, SELECT, UP, DOWN, LEFT, RIGHT"), s, nid)
  else if duration < 1 then
    (.error "Duration must be at least 1 frame", s, nid)
  else if duration > 60 then
    (.error "Duration cannot exceed 60 frames (1 second)", s, nid)
  else
    match GameSession.get_emulator env now s nid with
    | (.error e, s2, nid2) => (.error e, s2, nid2)
    | (.ok emu, s2, nid2) =>
      if emu.is_ready then
        let s3 := GameSession.record_input now
          (GameSession.record_frame_advance now duration.toNat s2)
        (.ok {
            success := true
            message := "Button " ++ button ++ " pressed for " ++ toString duration ++ " frames"
            button := bu
            duration := duration
            frames_advanced := duration }, s3, nid2)
      else
        (.error ("Failed to press button: Emulator is not running. " ++
          "Use load_rom() to start emulation first. Make sure a ROM is loaded and try again."),
          s2, nid2)

/-! ### Sequences of session operations -/

/-- One caller-visible session operation (the `now` argument is the clock
reading when it runs). -/
inductive Op
  | load (p : String) (now : Nat)
  | pauseOp
  | resumeOp
  | stopOp
  | ensure (now : Nat)
  | press (button : String) (duration : Int) (now : Nat)
  | frameAdv (frames : Nat) (now : Nat)
  | inputRec (now : Nat)

/-- Apply one operation to the session-and-id-counter pair, discarding the
operation's return value (the lock serializes them, so a run is a fold). -/
def step (env : Env) (w : GameSession × Nat) : Op → GameSession × Nat
  | .load p now => (GameSession.load_rom env now w.1 w.2 p).2
  | .pauseOp => (w.1.pause, w.2)
  | .resumeOp => (w.1.resume, w.2)
  | .stopOp => (w.1.stop env, w.2)
  | .ensure now => (GameSession.ensure_running env now w.1 w.2).2
  | .press b d now => (press_button env now b d w.1 w.2).2
  | .frameAdv n now => (GameSession.record_frame_advance now n w.1, w.2)
  | .inputRec now => (GameSession.record_input now w.1, w.2)

/-- Run a whole sequence of operations from a starting configuration. -/
def runOps (env : Env) (w : GameSession × Nat) (ops : List Op) : GameSession × Nat :=
  ops.foldl (step env) w

/-! ### A concrete demonstration environment (used by witnesses and
counterexamples) -/

/-- A small filesystem/engine world: `roms/a.gb` loads fine, reading
`roms/b.gb` raises an unexpected error, constructing the engine on
`roms/bad.gb` fails with a corrupt-content message, on `roms/locked.gb`
with a permission message, and on `roms/odd.gb` with an unclassifiable
message. -/
def demoEnv : Env :=
  { fs := [("roms/a.gb", [1, 2, 3]), ("roms/b.gb", [4, 5]), ("roms/bad.gb", [6]),
      ("roms/locked.gb", [7]), ("roms/odd.gb", [8]), ("roms/note.txt", [9])]
    readErr := fun p => if p = "roms/b.gb" then some "boom" else none
    construct := fun p =>
      if p = "roms/bad.gb" then some "Invalid ROM header detected"
      else if p = "roms/locked.gb" then some "Permission denied"
      else if p = "roms/odd.gb" then some "out of memory" else none
    digest := fun l => if l = [1, 2, 3] then "aaaaaaaaaaaaaaaaZZ" else "bbbbbbbbbbbbbbbbZZ"
    stopFail := fun _ => false }

/-! ### Characterization lemmas -/

/-- Whether a call returned normally (no exception). -/
def exIsOk {ε α : Type} : Except ε α → Bool
  | .ok _ => true
  | .error _ => false

/-- The message of a raised `SessionError` (empty if none was raised). -/
def exErr {α : Type} : Except String α → String
  | .ok _ => ""
  | .error e => e

/-- A successful `PyBoyEmulator.load_rom` stores the freshly constructed
engine instance, the path, and the running flag, and consumes one id. -/
theorem emu_load_ok {env : Env} {nid : Nat} {e : PyBoyEmulator} {p : String}
    {u : Unit} {e2 : PyBoyEmulator} {n2 : Nat}
    (h : PyBoyEmulator.load_rom env nid e p = (.ok u, e2, n2)) :
    e2.pyboy = some nid ∧ e2.current_rom_path = some p ∧ e2.is_running = true ∧
      e2.is_ready = true ∧ n2 = nid + 1 := by
  unfold PyBoyEmulator.load_rom at h
  split at h
  · simp at h
  · split at h
    · simp at h
    · rcases hc : env.construct p with _ | m <;> rw [hc] at h
      · simp [Prod.ext_iff] at h
        obtain ⟨he2, hn2⟩ := h
        subst he2
        subst hn2
        simp [PyBoyEmulator.is_ready]
      · simp only [] at h
        split at h <;> simp at h
        split at h <;> simp at h

/-- A successful `GameSession.load_rom` records path, fingerprint,
`RUNNING`, both timestamps, zeroed counters, a ready handle, and an
unchanged crash count. -/
theorem load_rom_ok {env : Env} {now : Nat} {s : GameSession} {nid : Nat} {p : String}
    {info : RomInfo} {s' : GameSession} {n' : Nat}
    (h : GameSession.load_rom env now s nid p = (.ok info, s', n')) :
    s'.state = .RUNNING ∧ s'.current_rom_path = some p ∧
      s'.current_rom_hash = some (env.romHash p) ∧
      s'.session_start_time = some now ∧ s'.last_activity_time = some now ∧
      s'.total_frames = 0 ∧ s'.total_inputs = 0 ∧
      s'.readyEmulator = true ∧ info.rom_hash = env.romHash p ∧
      s'.crash_count = s.crash_count := by
  unfold GameSession.load_rom at h
  split at h
  · simp at h
  · split at h
    · simp at h
    · simp only [] at h
      split at h
      case _ u emu2 nid2 heq =>
        simp [Prod.ext_iff] at h
        obtain ⟨hi, hs, hn⟩ := h
        subst hi hs hn
        have hemu := emu_load_ok heq
        simp [GameSession.readyEmulator, hemu.2.2.2.1]
      case _ e emu2 nid2 heq =>
        simp at h

/-- A failed `GameSession.load_rom` ends in `ERROR` or `CRASHED`, leaves
path, fingerprint, timestamps and frame/input counters untouched, keeps the
crash count in the `ERROR` case and increments it in the `CRASHED` case,
and records an error message. -/
theorem load_rom_err {env : Env} {now : Nat} {s : GameSession} {nid : Nat} {p : String}
    {msg : String} {s' : GameSession} {n' : Nat}
    (h : GameSession.load_rom env now s nid p = (.error msg, s', n')) :
    (s'.state = .ERROR ∨ s'.state = .CRASHED) ∧
      s'.current_rom_path = s.current_rom_path ∧
      s'.current_rom_hash = s.current_rom_hash ∧
      s'.session_start_time = s.session_start_time ∧
      s'.last_activity_time = s.last_activity_time ∧
      s'.total_frames = s.total_frames ∧
      s'.total_inputs = s.total_inputs ∧
      (s'.state = .ERROR → s'.crash_count = s.crash_count) ∧
      (s'.state = .CRASHED → s'.crash_count = s.crash_count + 1) ∧
      s'.error_message.isSome = true := by
  unfold GameSession.load_rom at h
  split at h
  · simp [Prod.ext_iff] at h
    obtain ⟨hm, hs, hn⟩ := h
    subst hs
    simp
  · split at h
    · simp [Prod.ext_iff] at h
      obtain ⟨hm, hs, hn⟩ := h
      subst hs
      simp
    · simp only [] at h
      split at h
      case _ u emu2 nid2 heq =>
        simp at h
      case _ e emu2 nid2 heq =>
        simp [Prod.ext_iff] at h
        obtain ⟨hm, hs, hn⟩ := h
        subst hs
        simp

/-- In state `CRASHED` with a remembered path, `ensure_running` behaves as
the retried `load_rom` on exactly that path: same resulting session and id
counter, same success/failure, and a failure is re-raised with the
recovery-failed message. -/
theorem ensure_crashed (env : Env) (now : Nat) (s : GameSession) (nid : Nat) (p : String)
    (h1 : s.state = .CRASHED) (h2 : s.current_rom_path = some p) :
    (GameSession.ensure_running env now s nid).2 = (GameSession.load_rom env now s nid p).2 ∧
      exIsOk (GameSession.ensure_running env now s nid).1 =
        exIsOk (GameSession.load_rom env now s nid p).1 ∧
      (∀ e, (GameSession.load_rom env now s nid p).1 = .error e →
        (GameSession.ensure_running env now s nid).1 =
          .error ("Failed to recover crashed session: " ++ e ++
            ". Server restart may be required.")) := by
  unfold GameSession.ensure_running
  rw [h1, h2]
  simp only []
  rcases hl : GameSession.load_rom env now s nid p with ⟨r, s2, n2⟩
  cases r <;> simp [exIsOk]

/-! ### The ready-handle invariant -/

/-- The spec's invariant, one direction: an active state implies a present
and ready emulator handle. -/
def Inv (s : GameSession) : Prop := s.is_active = true → s.readyEmulator = true

/-- `is_active` unfolded to a disjunction of states. -/
theorem is_active_iff {s : GameSession} :
    s.is_active = true ↔ (s.state = .RUNNING ∨ s.state = .PAUSED) := by
  cases h : s.state <;> simp [GameSession.is_active, h]

/-- `load_rom` re-establishes the invariant from any starting session. -/
theorem load_inv (env : Env) (now : Nat) (s : GameSession) (nid : Nat) (p : String) :
    Inv (GameSession.load_rom env now s nid p).2.1 := by
  rcases hr : GameSession.load_rom env now s nid p with ⟨r, s', n'⟩
  cases r with
  | ok info => intro _; exact (load_rom_ok hr).2.2.2.2.2.2.2.1
  | error e =>
    intro ha
    rcases is_active_iff.mp ha with h | h <;>
      rcases (load_rom_err hr).1 with h2 | h2 <;> simp_all

/-- `ensure_running` preserves the invariant. -/
theorem ensure_inv (env : Env) (now : Nat) (s : GameSession) (nid : Nat)
    (hs : Inv s) : Inv (GameSession.ensure_running env now s nid).2.1 := by
  unfold GameSession.ensure_running
  cases h : s.state
  case IDLE | LOADING | ERROR => simpa using hs
  case RUNNING => simpa using hs
  case PAUSED =>
    intro _
    have hr := hs (is_active_iff.mpr (Or.inr h))
    simp only [GameSession.resume, h, if_true, reduceIte]
    simp only [GameSession.readyEmulator] at hr ⊢
    rcases he : s.emulator with _ | e <;> rw [he] at hr <;> simp_all
  case CRASHED =>
    cases hp : s.current_rom_path with
    | none => simpa using hs
    | some p =>
      simp only []
      rcases hl : GameSession.load_rom env now s nid p with ⟨r, s2, n2⟩
      cases r with
      | ok info =>
        simp only [hl]
        have := load_inv env now s nid p
        rw [hl] at this
        simpa using this
      | error e =>
        simp only [hl]
        have := load_inv env now s nid p
        rw [hl] at this
        simpa using this

/-- `get_emulator` preserves the invariant. -/
theorem get_inv (env : Env) (now : Nat) (s : GameSession) (nid : Nat)
    (hs : Inv s) : Inv (GameSession.get_emulator env now s nid).2.1 := by
  unfold GameSession.get_emulator
  have he := ensure_inv env now s nid hs
  rcases hr : GameSession.ensure_running env now s nid with ⟨r, s2, n2⟩
  rw [hr] at he
  cases r with
  | error e => simpa using he
  | ok u =>
    simp only []
    cases hemu : s2.emulator with
    | none => simpa using he
    | some e =>
      by_cases hready : e.is_ready = true
      · simp only [hemu, hready, if_true, reduceIte]
        intro _
        simp [GameSession.readyEmulator, hemu, hready]
      · simp only [hemu]
        rw [if_neg (by simpa using hready)]
        simpa using he

/-- `press_button` preserves the invariant. -/
theorem press_inv (env : Env) (now : Nat) (b : String) (d : Int) (s : GameSession) (nid : Nat)
    (hs : Inv s) : Inv (press_button env now b d s nid).2.1 := by
  unfold press_button
  by_cases h1 : ¬ validButtons.contains (strUpper b) = true
  · rw [if_pos h1]; simpa using hs
  · rw [if_neg h1]
    by_cases h2 : d < 1
    · rw [if_pos h2]; simpa using hs
    · rw [if_neg h2]
      by_cases h3 : d > 60
      · rw [if_pos h3]; simpa using hs
      · rw [if_neg h3]
        have hg := get_inv env now s nid hs
        rcases hr : GameSession.get_emulator env now s nid with ⟨r, s2, n2⟩
        rw [hr] at hg
        simp only [hr]
        cases r with
        | error e => simpa using hg
        | ok emu =>
          simp only []
          by_cases h4 : emu.is_ready = true
          · rw [if_pos h4]
            intro ha
            simp only [GameSession.record_input, GameSession.record_frame_advance] at ha ⊢
            simp only [GameSession.is_active, GameSession.readyEmulator] at *
            exact hg ha
          · rw [if_neg h4]
            simpa using hg

/-- Every single operation preserves the invariant. -/
theorem step_inv (env : Env) (w : GameSession × Nat) (op : Op)
    (hs : Inv w.1) : Inv (step env w op).1 := by
  cases op with
  | load p now => exact load_inv env now w.1 w.2 p
  | pauseOp =>
    simp only [step, GameSession.pause]
    split
    · intro ha
      have : w.1.is_active = true := is_active_iff.mpr (Or.inl (by assumption))
      have hr := hs this
      simpa [GameSession.readyEmulator] using hr
    · exact hs
  | resumeOp =>
    simp only [step, GameSession.resume]
    split
    · intro ha
      have : w.1.is_active = true := is_active_iff.mpr (Or.inr (by assumption))
      have hr := hs this
      simpa [GameSession.readyEmulator] using hr
    · exact hs
  | stopOp =>
    simp only [step, GameSession.stop]
    intro ha
    simp [GameSession.is_active] at ha
  | ensure now => exact ensure_inv env now w.1 w.2 hs
  | press b d now => exact press_inv env now b d w.1 w.2 hs
  | frameAdv n now =>
    simp only [step, GameSession.record_frame_advance]
    intro ha
    simp only [GameSession.is_active, GameSession.readyEmulator] at *
    exact hs ha
  | inputRec now =>
    simp only [step, GameSession.record_input]
    intro ha
    simp only [GameSession.is_active, GameSession.readyEmulator] at *
    exact hs ha

/-- Whole-run preservation of the invariant. -/
theorem runOps_inv (env : Env) (ops : List Op) (w : GameSession × Nat)
    (hs : Inv w.1) : Inv (runOps env w ops).1 := by
  induction ops generalizing w with
  | nil => simpa [runOps] using hs
  | cons op rest ih =>
    simp only [runOps, List.foldl_cons]
    exact ih _ (step_inv env w op hs)

/-! ### Claim C1 -/

/-- C1 (counterexample): the biconditional `state ∈ {RUNNING, PAUSED} ⇔
handle present and ready` fails on the code.  Load `roms/a.gb`
successfully, then call `load_rom` on a path that does not exist: the
session ends in `ERROR`, yet the previously created emulator handle is
still present and `is_ready()` — contradicting in particular the claim's
"no ready emulator instance remains while state is not RUNNING/PAUSED". -/
theorem C1_counterexample :
    ¬ (((runOps demoEnv (GameSession.init, 0)
          [.load "roms/a.gb" 0, .load "missing.gb" 1]).1).is_active = true ↔
        ((runOps demoEnv (GameSession.init, 0)
          [.load "roms/a.gb" 0, .load "missing.gb" 1]).1).readyEmulator = true) := by
  decide

/-- C1 (amended): only the forward direction of the invariant holds: for
every sequence of session operations from a fresh session, if the state is
RUNNING or PAUSED then the emulator handle is present and `is_ready()`.
The converse fails (see the counterexample): a `load_rom` that fails
because the path does not exist leaves any previously ready emulator
instance in place while the state moves to ERROR. -/
theorem C1_amended (env : Env) (ops : List Op)
    (h : ((runOps env (GameSession.init, 0) ops).1).is_active = true) :
    ((runOps env (GameSession.init, 0) ops).1).readyEmulator = true :=
  runOps_inv env ops (GameSession.init, 0)
    (by intro ha; simp [GameSession.init, GameSession.is_active] at ha) h

/-- C1 witness: a concrete run reaching RUNNING, where the amended theorem
yields a ready handle. -/
theorem C1_witness :
    ((runOps demoEnv (GameSession.init, 0) [.load "roms/a.gb" 0]).1).is_active = true ∧
      ((runOps demoEnv (GameSession.init, 0) [.load "roms/a.gb" 0]).1).readyEmulator = true :=
  ⟨by decide, C1_amended demoEnv [.load "roms/a.gb" 0] (by decide)⟩

/-! ### Claim C2 -/

/-- C2 (counterexample): `stop()` does **not** clear the last-activity
timestamp and does **not** reset the frame counter.  Load a ROM at time 3,
record a 7-frame advance at time 4, then stop: `last_activity_time` is
still `some 4` and `total_frames` still `7`, against the claim's "both
timestamps … cleared … counters … reset to 0". -/
theorem C2_counterexample :
    ¬ (((runOps demoEnv (GameSession.init, 0)
          [.load "roms/a.gb" 3, .frameAdv 7 4, .stopOp]).1).last_activity_time = none ∧
        ((runOps demoEnv (GameSession.init, 0)
          [.load "roms/a.gb" 3, .frameAdv 7 4, .stopOp]).1).total_frames = 0) := by
  decide

/-- C2 (amended): after `stop()` from any state, `state = IDLE` and the
loaded-program path, fingerprint, session-start timestamp and error message
are cleared (and the handle is dropped); the last-activity timestamp and
the frame/input counters keep their prior values, as does `crash_count`. -/
theorem C2_amended (env : Env) (s : GameSession) :
    (s.stop env).state = .IDLE ∧ (s.stop env).current_rom_path = none ∧
      (s.stop env).current_rom_hash = none ∧ (s.stop env).session_start_time = none ∧
      (s.stop env).error_message = none ∧ (s.stop env).emulator = none ∧
      (s.stop env).last_activity_time = s.last_activity_time ∧
      (s.stop env).total_frames = s.total_frames ∧
      (s.stop env).total_inputs = s.total_inputs ∧
      (s.stop env).crash_count = s.crash_count := by
  simp [GameSession.stop]

/-! ### Claim C6 -/

/-- C6: `stop()` is idempotent — `n + 1` consecutive stops from any session
state equal a single stop, which ends in `IDLE` and raises nothing (it is a
total function into a session); and at the `PyBoyEmulator` level `stop()`
always clears the instance and loaded path and sets `is_running = false`,
for every environment (in particular whatever the underlying engine
`stop()` does, that failure is swallowed), is idempotent too, and is safe
when never started (`pyboy = none`). -/
theorem C6_stop_idempotent (env : Env) (s : GameSession) (n : Nat) (e : PyBoyEmulator) :
    (fun t => GameSession.stop env t)^[n + 1] s = GameSession.stop env s ∧
      (GameSession.stop env s).state = .IDLE ∧
      PyBoyEmulator.stop env e =
        { headless := e.headless, pyboy := none, current_rom_path := none,
          is_running := false } ∧
      (fun t => PyBoyEmulator.stop env t)^[n + 1] e = PyBoyEmulator.stop env e := by
  refine ⟨?_, rfl, rfl, ?_⟩
  · induction n generalizing s with
    | zero => simp
    | succ k ih =>
      rw [Function.iterate_succ_apply]
      rw [ih]
      simp [GameSession.stop]
  · induction n generalizing e with
    | zero => simp
    | succ k ih =>
      rw [Function.iterate_succ_apply]
      rw [ih]
      simp [PyBoyEmulator.stop]

/-! ### Claim C4 -/

/-- C4: whenever `load_rom(path)` returns successfully, the session records
the given path and its computed fingerprint, the state is RUNNING (never
PAUSED), both timestamps are set to the current time, and the frame and
input counters are 0; the returned payload carries the same fingerprint. -/
theorem C4_load_success (env : Env) (now : Nat) (s : GameSession) (nid : Nat) (p : String)
    (h : exIsOk (GameSession.load_rom env now s nid p).1 = true) :
    (GameSession.load_rom env now s nid p).2.1.current_rom_path = some p ∧
      (GameSession.load_rom env now s nid p).2.1.current_rom_hash = some (env.romHash p) ∧
      (GameSession.load_rom env now s nid p).2.1.state = .RUNNING ∧
      (GameSession.load_rom env now s nid p).2.1.session_start_time = some now ∧
      (GameSession.load_rom env now s nid p).2.1.last_activity_time = some now ∧
      (GameSession.load_rom env now s nid p).2.1.total_frames = 0 ∧
      (GameSession.load_rom env now s nid p).2.1.total_inputs = 0 ∧
      (∀ i, (GameSession.load_rom env now s nid p).1 = .ok i →
        i.rom_hash = env.romHash p) := by
  rcases hr : GameSession.load_rom env now s nid p with ⟨r, s2, n2⟩
  rw [hr] at h
  cases r with
  | error e => simp [exIsOk] at h
  | ok info =>
    have hok := load_rom_ok hr
    refine ⟨hok.2.1, hok.2.2.1, hok.1, hok.2.2.2.1, hok.2.2.2.2.1, hok.2.2.2.2.2.1,
      hok.2.2.2.2.2.2.1, ?_⟩
    intro i hi
    simp at hi
    rw [← hi]
    exact hok.2.2.2.2.2.2.2.2.1

/-- C4 witness: a concrete successful load at time 7. -/
theorem C4_witness :
    exIsOk (GameSession.load_rom demoEnv 7 GameSession.init 0 "roms/a.gb").1 = true ∧
      (GameSession.load_rom demoEnv 7 GameSession.init 0 "roms/a.gb").2.1.state = .RUNNING ∧
      (GameSession.load_rom demoEnv 7 GameSession.init 0 "roms/a.gb").2.1.current_rom_hash =
        some (demoEnv.romHash "roms/a.gb") :=
  ⟨by decide,
    (C4_load_success demoEnv 7 GameSession.init 0 "roms/a.gb" (by decide)).2.2.1,
    (C4_load_success demoEnv 7 GameSession.init 0 "roms/a.gb" (by decide)).2.1⟩

/-! ### Claim C5 -/

/-- C5: if `load_rom` raises — through the `ROMError`/`EmulatorStateError`
branch (state `ERROR`) or the unexpected-exception branch (state
`CRASHED`) — the loaded-program path, fingerprint, session-start timestamp,
last-activity timestamp and frame/input counters all keep their prior
values; `crash_count` is unchanged in the error branch and incremented in
the crash branch; consequently a later recovery from the crashed state
retries the *previously* loaded path `q`, not the path whose load failed:
`ensure_running` then produces exactly the outcome of `load_rom` on `q`. -/
theorem C5_load_failure_frame (env : Env) (now : Nat) (s : GameSession) (nid : Nat)
    (p : String)
    (h : exIsOk (GameSession.load_rom env now s nid p).1 = false) :
    (GameSession.load_rom env now s nid p).2.1.current_rom_path = s.current_rom_path ∧
      (GameSession.load_rom env now s nid p).2.1.current_rom_hash = s.current_rom_hash ∧
      (GameSession.load_rom env now s nid p).2.1.session_start_time = s.session_start_time ∧
      (GameSession.load_rom env now s nid p).2.1.last_activity_time = s.last_activity_time ∧
      (GameSession.load_rom env now s nid p).2.1.total_frames = s.total_frames ∧
      (GameSession.load_rom env now s nid p).2.1.total_inputs = s.total_inputs ∧
      ((GameSession.load_rom env now s nid p).2.1.state = .ERROR ∨
        (GameSession.load_rom env now s nid p).2.1.state = .CRASHED) ∧
      ((GameSession.load_rom env now s nid p).2.1.state = .ERROR →
        (GameSession.load_rom env now s nid p).2.1.crash_count = s.crash_count) ∧
      ((GameSession.load_rom env now s nid p).2.1.state = .CRASHED →
        (GameSession.load_rom env now s nid p).2.1.crash_count = s.crash_count + 1) ∧
      (∀ q now2 nid2, (GameSession.load_rom env now s nid p).2.1.state = .CRASHED →
        s.current_rom_path = some q →
        (GameSession.ensure_running env now2 (GameSession.load_rom env now s nid p).2.1
            nid2).2 =
          (GameSession.load_rom env now2 (GameSession.load_rom env now s nid p).2.1
            nid2 q).2) := by
  rcases hr : GameSession.load_rom env now s nid p with ⟨r, s2, n2⟩
  rw [hr] at h
  cases r with
  | ok info => simp [exIsOk] at h
  | error e =>
    have herr := load_rom_err hr
    refine ⟨herr.2.1, herr.2.2.1, herr.2.2.2.1, herr.2.2.2.2.1, herr.2.2.2.2.2.1,
      herr.2.2.2.2.2.2.1, herr.1, herr.2.2.2.2.2.2.2.1, herr.2.2.2.2.2.2.2.2.1, ?_⟩
    intro q now2 nid2 hcr hq
    exact (ensure_crashed env now2 s2 nid2 q hcr (by rw [herr.2.1, hq])).1

/-- C5 witness: load `roms/a.gb` successfully, then crash loading
`roms/b.gb`; path, fingerprint, start time and counters are those of the
first load and the crash count is incremented. -/
theorem C5_witness :
    exIsOk (GameSession.load_rom demoEnv 1
        (runOps demoEnv (GameSession.init, 0) [.load "roms/a.gb" 0]).1
        (runOps demoEnv (GameSession.init, 0) [.load "roms/a.gb" 0]).2 "roms/b.gb").1 =
      false ∧
      (GameSession.load_rom demoEnv 1
          (runOps demoEnv (GameSession.init, 0) [.load "roms/a.gb" 0]).1
          (runOps demoEnv (GameSession.init, 0) [.load "roms/a.gb" 0]).2
          "roms/b.gb").2.1.current_rom_path =
        (runOps demoEnv (GameSession.init, 0) [.load "roms/a.gb" 0]).1.current_rom_path ∧
      (GameSession.load_rom demoEnv 1
          (runOps demoEnv (GameSession.init, 0) [.load "roms/a.gb" 0]).1
          (runOps demoEnv (GameSession.init, 0) [.load "roms/a.gb" 0]).2
          "roms/b.gb").2.1.state = .CRASHED :=
  ⟨by decide,
    (C5_load_failure_frame demoEnv 1
      (runOps demoEnv (GameSession.init, 0) [.load "roms/a.gb" 0]).1
      (runOps demoEnv (GameSession.init, 0) [.load "roms/a.gb" 0]).2
      "roms/b.gb" (by decide)).1,
    by decide⟩

/-! ### Claim C3 -/

/-- A crashed session remembering a path whose file has since disappeared
(the crash-then-file-removed scenario: `load_rom` had succeeded on this
path, the session later crashed, and the file was deleted before
recovery). -/
def crashedGone : GameSession :=
  { emulator := none, state := .CRASHED, current_rom_path := some "roms/gone.gb",
    current_rom_hash := some "aaaaaaaaaaaaaaaa", session_start_time := some 0,
    last_activity_time := some 0, error_message := some "Unexpected error: boom",
    total_frames := 0, total_inputs := 0, crash_count := 1 }

/-- C3 (counterexample): when recovery from `CRASHED` fails, the state does
**not** always remain `CRASHED`: retrying a remembered path that no longer
exists raises through `load_rom`'s `ROMError` branch, which sets the state
to `ERROR`.  A `SessionError` is raised, but the state moved to `ERROR`. -/
theorem C3_counterexample :
    exIsOk (GameSession.ensure_running demoEnv 9 crashedGone 3).1 = false ∧
      ¬ (GameSession.ensure_running demoEnv 9 crashedGone 3).2.1.state = .CRASHED := by
  decide

/-- C3 (amended): `ensure_running` in state CRASHED with a remembered path
retries `load_rom` with exactly that path (same resulting session and
counter); on success it returns normally with state RUNNING; on failure it
raises a `SessionError` saying recovery failed and that a server restart may
be required, and the state is whatever the failing `load_rom` set — `ERROR`
for ROM/emulator-state errors, `CRASHED` for unexpected errors (not
necessarily CRASHED).  With no remembered path it raises the
no-ROM-to-recover `SessionError` without changing the session. -/
theorem C3_crash_recovery (env : Env) (now : Nat) (s : GameSession) (nid : Nat)
    (h1 : s.state = .CRASHED) :
    (∀ p, s.current_rom_path = some p →
      (GameSession.ensure_running env now s nid).2 =
          (GameSession.load_rom env now s nid p).2 ∧
        (exIsOk (GameSession.load_rom env now s nid p).1 = true →
          exIsOk (GameSession.ensure_running env now s nid).1 = true ∧
            (GameSession.ensure_running env now s nid).2.1.state = .RUNNING) ∧
        (∀ e, (GameSession.load_rom env now s nid p).1 = .error e →
          (GameSession.ensure_running env now s nid).1 =
              .error ("Failed to recover crashed session: " ++ e ++
                ". Server restart may be required.") ∧
            ((GameSession.ensure_running env now s nid).2.1.state = .ERROR ∨
              (GameSession.ensure_running env now s nid).2.1.state = .CRASHED))) ∧
      (s.current_rom_path = none →
        GameSession.ensure_running env now s nid =
          (.error "Session crashed with no ROM to recover. Load a new ROM to continue.",
            s, nid)) := by
  constructor
  · intro p hp
    have hc := ensure_crashed env now s nid p h1 hp
    refine ⟨hc.1, ?_, ?_⟩
    · intro hok
      refine ⟨by rw [hc.2.1, hok], ?_⟩
      rcases hl : GameSession.load_rom env now s nid p with ⟨r, s2, n2⟩
      cases r with
      | error e => rw [hl] at hok; simp [exIsOk] at hok
      | ok info =>
        have := (load_rom_ok hl).1
        rw [hc.1, hl]
        simpa using this
    · intro e he
      refine ⟨hc.2.2 e he, ?_⟩
      rcases hl : GameSession.load_rom env now s nid p with ⟨r, s2, n2⟩
      rw [hl] at he
      cases r with
      | ok info => simp at he
      | error e2 =>
        simp at he
        subst he
        have := (load_rom_err hl).1
        rw [hc.1, hl]
        simpa using this
  · intro hp
    unfold GameSession.ensure_running
    rw [h1, hp]

/-- C3 witness: (a) recovery succeeds from the reachable crashed state
(load `roms/a.gb`, then crash loading `roms/b.gb`) and ends RUNNING;
(b) a crashed session with no remembered path (crash on the very first
load) fails with the no-ROM-to-recover error, unchanged. -/
theorem C3_witness :
    ((runOps demoEnv (GameSession.init, 0)
        [.load "roms/a.gb" 0, .load "roms/b.gb" 1]).1.state = .CRASHED ∧
      exIsOk (GameSession.ensure_running demoEnv 5
        (runOps demoEnv (GameSession.init, 0) [.load "roms/a.gb" 0, .load "roms/b.gb" 1]).1
        (runOps demoEnv (GameSession.init, 0)
          [.load "roms/a.gb" 0, .load "roms/b.gb" 1]).2).1 = true ∧
      (GameSession.ensure_running demoEnv 5
        (runOps demoEnv (GameSession.init, 0) [.load "roms/a.gb" 0, .load "roms/b.gb" 1]).1
        (runOps demoEnv (GameSession.init, 0)
          [.load "roms/a.gb" 0, .load "roms/b.gb" 1]).2).2.1.state = .RUNNING) ∧
      ((runOps demoEnv (GameSession.init, 0) [.load "roms/b.gb" 0]).1.state = .CRASHED ∧
        GameSession.ensure_running demoEnv 5
            (runOps demoEnv (GameSession.init, 0) [.load "roms/b.gb" 0]).1 7 =
          (.error "Session crashed with no ROM to recover. Load a new ROM to continue.",
            (runOps demoEnv (GameSession.init, 0) [.load "roms/b.gb" 0]).1, 7)) :=
  ⟨⟨by decide,
    ((C3_crash_recovery demoEnv 5
        (runOps demoEnv (GameSession.init, 0) [.load "roms/a.gb" 0, .load "roms/b.gb" 1]).1
        (runOps demoEnv (GameSession.init, 0) [.load "roms/a.gb" 0, .load "roms/b.gb" 1]).2
        (by decide)).1 "roms/a.gb" (by decide)).2.1 (by decide)⟩,
    by decide,
    ((C3_crash_recovery demoEnv 5
        (runOps demoEnv (GameSession.init, 0) [.load "roms/b.gb" 0]).1 7
        (by decide)).2 (by decide))⟩

/-! ### Claim C7 -/

/-- An option that is `some` is not `none`. -/
theorem isNone_false_of_isSome {α : Type} {o : Option α} (h : o.isSome = true) :
    o.isNone = false := by
  cases o <;> simp_all

/-- When the file exists, the extension is accepted and engine construction
succeeds, `PyBoyEmulator.load_rom` constructs a fresh engine instance
(consuming the next id) regardless of the wrapper's prior contents. -/
theorem emu_load_constructs (env : Env) (nid : Nat) (e : PyBoyEmulator) (p : String)
    (hex : (env.content p).isSome = true)
    (hext : strLower (pathSuffix p) = ".gb" ∨ strLower (pathSuffix p) = ".gbc")
    (hctor : env.construct p = none) :
    PyBoyEmulator.load_rom env nid e p =
      (.ok (), {
          headless := e.headless
          pyboy := some nid
          current_rom_path := some p
          is_running := true }, nid + 1) := by
  unfold PyBoyEmulator.load_rom
  rw [if_neg (by simp [isNone_false_of_isSome hex])]
  rw [if_neg (not_not_intro hext)]
  simp only [hctor]
  split <;> simp [PyBoyEmulator.stop]

/-- C7: during `load_rom` (on an existing, well-formed, constructible
file), the handle the load proceeds with is a freshly constructed
`PyBoyEmulator` if and only if no handle exists yet or the new fingerprint
differs from the recorded one, and is the existing handle otherwise; and in
*every* case — in particular when the fingerprint is equal and the handle
is reused — the load itself is still executed: the call succeeds and a new
engine instance is constructed, consuming the id counter. -/
theorem C7_handle_reuse (env : Env) (now : Nat) (s : GameSession) (nid : Nat) (p : String)
    (hex : (env.content p).isSome = true)
    (hre : env.readErr p = none)
    (hext : strLower (pathSuffix p) = ".gb" ∨ strLower (pathSuffix p) = ".gbc")
    (hctor : env.construct p = none) :
    ((s.emulator.isNone = true ∨ some (env.romHash p) ≠ s.current_rom_hash) →
        s.selectEmulator (env.romHash p) = PyBoyEmulator.init true) ∧
      (∀ e, s.emulator = some e → some (env.romHash p) = s.current_rom_hash →
        s.selectEmulator (env.romHash p) = e) ∧
      exIsOk (GameSession.load_rom env now s nid p).1 = true ∧
      (GameSession.load_rom env now s nid p).2.2 = nid + 1 := by
  refine ⟨?_, ?_, ?_⟩
  · intro hc
    unfold GameSession.selectEmulator
    rw [if_pos hc]
  · intro e he hh
    unfold GameSession.selectEmulator
    rw [if_neg (by simp [he, ← hh]), he]
    rfl
  · unfold GameSession.load_rom
    rw [if_neg (by simp [isNone_false_of_isSome hex])]
    simp only [hre]
    rw [emu_load_constructs env nid _ p hex hext hctor]
    simp [exIsOk]

/-- C7 witness: with `roms/a.gb` already loaded (handle present, equal
fingerprint) the handle is reused, yet reloading still constructs a fresh
engine instance (the id counter moves from 1 to 2); and on the fresh
session the selector yields a brand-new handle. -/
theorem C7_witness :
    ((runOps demoEnv (GameSession.init, 0) [.load "roms/a.gb" 0]).1.selectEmulator
        (demoEnv.romHash "roms/a.gb") =
      { headless := true, pyboy := some 0, current_rom_path := some "roms/a.gb",
        is_running := true }) ∧
      exIsOk (GameSession.load_rom demoEnv 5
        (runOps demoEnv (GameSession.init, 0) [.load "roms/a.gb" 0]).1
        (runOps demoEnv (GameSession.init, 0) [.load "roms/a.gb" 0]).2 "roms/a.gb").1 =
        true ∧
      (GameSession.load_rom demoEnv 5
        (runOps demoEnv (GameSession.init, 0) [.load "roms/a.gb" 0]).1
        (runOps demoEnv (GameSession.init, 0) [.load "roms/a.gb" 0]).2 "roms/a.gb").2.2 =
        2 ∧
      GameSession.init.selectEmulator (demoEnv.romHash "roms/a.gb") =
        PyBoyEmulator.init true :=
  ⟨(C7_handle_reuse demoEnv 5 (runOps demoEnv (GameSession.init, 0) [.load "roms/a.gb" 0]).1
      (runOps demoEnv (GameSession.init, 0) [.load "roms/a.gb" 0]).2 "roms/a.gb"
      (by decide) (by decide) (by decide) (by decide)).2.1
      { headless := true, pyboy := some 0, current_rom_path := some "roms/a.gb",
        is_running := true } (by decide) (by decide),
    (C7_handle_reuse demoEnv 5 (runOps demoEnv (GameSession.init, 0) [.load "roms/a.gb" 0]).1
      (runOps demoEnv (GameSession.init, 0) [.load "roms/a.gb" 0]).2 "roms/a.gb"
      (by decide) (by decide) (by decide) (by decide)).2.2.1,
    (C7_handle_reuse demoEnv 5 (runOps demoEnv (GameSession.init, 0) [.load "roms/a.gb" 0]).1
      (runOps demoEnv (GameSession.init, 0) [.load "roms/a.gb" 0]).2 "roms/a.gb"
      (by decide) (by decide) (by decide) (by decide)).2.2.2,
    (C7_handle_reuse demoEnv 5 GameSession.init 0 "roms/a.gb"
      (by decide) (by decide) (by decide) (by decide)).1 (Or.inl (by decide))⟩

/-! ### Claim C8 -/

/-- The keyword test the wrapper applies to the lowercased engine error
message (corrupt/invalid content, or permission/access). -/
def classifiedAsRom (m : String) : Bool :=
  containsSub (strLower m) "invalid rom" || containsSub (strLower m) "corrupt" ||
    containsSub (strLower m) "permission" || containsSub (strLower m) "access"

/-- C8: when engine construction fails (file present, extension accepted),
the raised error is a `ROMError` exactly when the underlying message
matches the corruption/permission keywords, and otherwise is an
`EmulatorStateError` whose message describes a compatibility or resource
problem; when construction succeeds the wrapper records the loaded path and
sets `is_running = true`. -/
theorem C8_error_classification (env : Env) (nid : Nat) (e : PyBoyEmulator) (p : String)
    (hex : (env.content p).isSome = true)
    (hext : strLower (pathSuffix p) = ".gb" ∨ strLower (pathSuffix p) = ".gbc") :
    (∀ m, env.construct p = some m →
      exIsOk (PyBoyEmulator.load_rom env nid e p).1 = false ∧
        (∀ err, (PyBoyEmulator.load_rom env nid e p).1 = .error err →
          (err.isRom = true ↔ classifiedAsRom m = true)) ∧
        (classifiedAsRom m = false →
          (PyBoyEmulator.load_rom env nid e p).1 =
            .error (.stateError ("Failed to initialize emulator with ROM: " ++ m ++
              ". This might be a PyBoy compatibility issue or system resource problem.")))) ∧
      (env.construct p = none →
        (PyBoyEmulator.load_rom env nid e p).2.1.current_rom_path = some p ∧
          (PyBoyEmulator.load_rom env nid e p).2.1.is_running = true) := by
  constructor
  · intro m hm
    unfold PyBoyEmulator.load_rom
    rw [if_neg (by simp [isNone_false_of_isSome hex])]
    rw [if_neg (not_not_intro hext)]
    simp only [hm]
    by_cases k1 : (containsSub (strLower m) "invalid rom" ||
        containsSub (strLower m) "corrupt") = true
    · rw [if_pos k1]
      simp only [Bool.or_eq_true] at k1
      refine ⟨rfl, ?_, ?_⟩
      · intro err herr
        simp at herr
        subst herr
        simp [EmuError.isRom, classifiedAsRom]
        tauto
      · intro hk
        simp [classifiedAsRom] at hk
        rcases k1 with h | h <;> simp_all
    · rw [if_neg k1]
      simp only [Bool.or_eq_true, not_or] at k1
      by_cases k2 : (containsSub (strLower m) "permission" ||
          containsSub (strLower m) "access") = true
      · rw [if_pos k2]
        simp only [Bool.or_eq_true] at k2
        refine ⟨rfl, ?_, ?_⟩
        · intro err herr
          simp at herr
          subst herr
          simp [EmuError.isRom, classifiedAsRom]
          tauto
        · intro hk
          simp [classifiedAsRom] at hk
          rcases k2 with h | h <;> simp_all
      · rw [if_neg k2]
        simp only [Bool.or_eq_true, not_or] at k2
        refine ⟨rfl, ?_, fun _ => rfl⟩
        intro err herr
        simp at herr
        subst herr
        simp [EmuError.isRom, classifiedAsRom]
        simp only [Bool.not_eq_true] at k1 k2
        simp [k1.1, k1.2, k2.1, k2.2]
  · intro hc
    rw [emu_load_constructs env nid e p hex hext hc]
    exact ⟨rfl, rfl⟩

/-- C8 witness: a corrupt-content message and a permission message each
yield a `ROMError`, an unclassifiable message yields the
`EmulatorStateError` compatibility/resource message, and a successful
construction records path and running flag. -/
theorem C8_witness :
    (∀ err, (PyBoyEmulator.load_rom demoEnv 0 (PyBoyEmulator.init true) "roms/bad.gb").1 =
        .error err → err.isRom = true) ∧
      (∀ err,
        (PyBoyEmulator.load_rom demoEnv 0 (PyBoyEmulator.init true) "roms/locked.gb").1 =
          .error err → err.isRom = true) ∧
      (PyBoyEmulator.load_rom demoEnv 0 (PyBoyEmulator.init true) "roms/odd.gb").1 =
        .error (.stateError ("Failed to initialize emulator with ROM: out of memory" ++
          ". This might be a PyBoy compatibility issue or system resource problem.")) ∧
      (PyBoyEmulator.load_rom demoEnv 0 (PyBoyEmulator.init true)
          "roms/a.gb").2.1.current_rom_path = some "roms/a.gb" ∧
      (PyBoyEmulator.load_rom demoEnv 0 (PyBoyEmulator.init true)
          "roms/a.gb").2.1.is_running = true :=
  ⟨fun err herr =>
    (((C8_error_classification demoEnv 0 (PyBoyEmulator.init true) "roms/bad.gb"
        (by decide) (by decide)).1 "Invalid ROM header detected" (by decide)).2.1 err
        herr).mpr (by decide),
    fun err herr =>
      (((C8_error_classification demoEnv 0 (PyBoyEmulator.init true) "roms/locked.gb"
          (by decide) (by decide)).1 "Permission denied" (by decide)).2.1 err
          herr).mpr (by decide),
    by
      have := ((C8_error_classification demoEnv 0 (PyBoyEmulator.init true) "roms/odd.gb"
        (by decide) (by decide)).1 "out of memory" (by decide)).2.2 (by decide)
      simpa using this,
    ((C8_error_classification demoEnv 0 (PyBoyEmulator.init true) "roms/a.gb"
      (by decide) (by decide)).2 (by decide)).1,
    ((C8_error_classification demoEnv 0 (PyBoyEmulator.init true) "roms/a.gb"
      (by decide) (by decide)).2 (by decide)).2⟩

/-! ### Claim C9 -/

/-- On a RUNNING session with a ready handle, `get_emulator` returns the
handle and only refreshes the last-activity timestamp. -/
theorem get_emulator_running (env : Env) (now : Nat) (s : GameSession) (nid : Nat)
    (h1 : s.state = .RUNNING) (h2 : s.readyEmulator = true) :
    ∃ e, s.emulator = some e ∧ e.is_ready = true ∧
      GameSession.get_emulator env now s nid =
        (.ok e, { s with last_activity_time := some now }, nid) := by
  unfold GameSession.readyEmulator at h2
  rcases he : s.emulator with _ | e
  · rw [he] at h2; simp at h2
  · rw [he] at h2
    refine ⟨e, rfl, h2, ?_⟩
    unfold GameSession.get_emulator GameSession.ensure_running
    rw [h1]
    simp only [he]
    rw [if_pos h2]
    simp [h1]

/-- C9: `press_button` rejects `duration < 1` (in particular 0) and
`duration > 60` (in particular 61) as validation errors before touching the
session — the session and counter are returned unchanged — and accepts
durations 1..60 (in particular 1 and 60): on a RUNNING session with a ready
handle an accepted call succeeds and reports `frames_advanced` equal to the
requested duration. -/
theorem C9_press_validation (env : Env) (now : Nat) (s : GameSession) (nid : Nat)
    (b : String) (d : Int) :
    (validButtons.contains (strUpper b) = true → (d < 1 ∨ 60 < d) →
      exIsOk (press_button env now b d s nid).1 = false ∧
        (press_button env now b d s nid).2 = (s, nid)) ∧
      (validButtons.contains (strUpper b) = true → 1 ≤ d → d ≤ 60 →
        s.state = .RUNNING → s.readyEmulator = true →
        exIsOk (press_button env now b d s nid).1 = true ∧
          (∀ r, (press_button env now b d s nid).1 = .ok r → r.frames_advanced = d)) := by
  constructor
  · intro hb hd
    unfold press_button
    rw [if_neg (by simpa using hb)]
    rcases hd with hd | hd
    · rw [if_pos hd]
      exact ⟨rfl, rfl⟩
    · rw [if_neg (by omega)]
      rw [if_pos (by omega)]
      exact ⟨rfl, rfl⟩
  · intro hb hd1 hd2 hrun hready
    unfold press_button
    rw [if_neg (by simpa using hb)]
    rw [if_neg (by omega)]
    rw [if_neg (by omega)]
    obtain ⟨e, he, heready, hget⟩ := get_emulator_running env now s nid hrun hready
    rw [hget]
    simp only []
    rw [if_pos heready]
    refine ⟨rfl, ?_⟩
    intro r hr
    simp at hr
    rw [← hr]

/-- C9 witness: on the RUNNING session obtained by loading `roms/a.gb`,
pressing `A` with durations 0 and 61 is rejected leaving the session
untouched, while durations 1 and 60 are accepted with `frames_advanced`
equal to the duration. -/
theorem C9_witness :
    (exIsOk (press_button demoEnv 9 "A" 0
          (runOps demoEnv (GameSession.init, 0) [.load "roms/a.gb" 0]).1
          (runOps demoEnv (GameSession.init, 0) [.load "roms/a.gb" 0]).2).1 = false ∧
        (press_button demoEnv 9 "A" 0
          (runOps demoEnv (GameSession.init, 0) [.load "roms/a.gb" 0]).1
          (runOps demoEnv (GameSession.init, 0) [.load "roms/a.gb" 0]).2).2 =
          ((runOps demoEnv (GameSession.init, 0) [.load "roms/a.gb" 0]).1,
            (runOps demoEnv (GameSession.init, 0) [.load "roms/a.gb" 0]).2)) ∧
      (exIsOk (press_button demoEnv 9 "A" 61
          (runOps demoEnv (GameSession.init, 0) [.load "roms/a.gb" 0]).1
          (runOps demoEnv (GameSession.init, 0) [.load "roms/a.gb" 0]).2).1 = false) ∧
      (exIsOk (press_button demoEnv 9 "A" 1
          (runOps demoEnv (GameSession.init, 0) [.load "roms/a.gb" 0]).1
          (runOps demoEnv (GameSession.init, 0) [.load "roms/a.gb" 0]).2).1 = true ∧
        (∀ r, (press_button demoEnv 9 "A" 1
            (runOps demoEnv (GameSession.init, 0) [.load "roms/a.gb" 0]).1
            (runOps demoEnv (GameSession.init, 0) [.load "roms/a.gb" 0]).2).1 = .ok r →
          r.frames_advanced = 1)) ∧
      (exIsOk (press_button demoEnv 9 "A" 60
          (runOps demoEnv (GameSession.init, 0) [.load "roms/a.gb" 0]).1
          (runOps demoEnv (GameSession.init, 0) [.load "roms/a.gb" 0]).2).1 = true) :=
  ⟨(C9_press_validation demoEnv 9 (runOps demoEnv (GameSession.init, 0)
      [.load "roms/a.gb" 0]).1 (runOps demoEnv (GameSession.init, 0)
      [.load "roms/a.gb" 0]).2 "A" 0).1 (by decide) (Or.inl (by decide)),
    ((C9_press_validation demoEnv 9 (runOps demoEnv (GameSession.init, 0)
      [.load "roms/a.gb" 0]).1 (runOps demoEnv (GameSession.init, 0)
      [.load "roms/a.gb" 0]).2 "A" 61).1 (by decide) (Or.inr (by decide))).1,
    (C9_press_validation demoEnv 9 (runOps demoEnv (GameSession.init, 0)
      [.load "roms/a.gb" 0]).1 (runOps demoEnv (GameSession.init, 0)
      [.load "roms/a.gb" 0]).2 "A" 1).2 (by decide) (by decide) (by decide)
      (by decide) (by decide),
    ((C9_press_validation demoEnv 9 (runOps demoEnv (GameSession.init, 0)
      [.load "roms/a.gb" 0]).1 (runOps demoEnv (GameSession.init, 0)
      [.load "roms/a.gb" 0]).2 "A" 60).2 (by decide) (by decide) (by decide)
      (by decide) (by decide)).1⟩

/-! ### Claim C10 -/

/-- Folding list-append over the blocks from an initial accumulator
concatenates them after it. -/
theorem foldl_append_join (L : List (List Nat)) (a : List Nat) :
    L.foldl (· ++ ·) a = a ++ L.flatten := by
  induction L generalizing a with
  | nil => simp
  | cons x xs ih => simp [ih, List.append_assoc]

/-- With enough fuel, re-joining the 4096-byte blocks gives back the
original bytes. -/
theorem chunksFuel_join (fuel : Nat) :
    ∀ l : List Nat, l.length ≤ fuel → (chunksFuel fuel l).flatten = l := by
  induction fuel with
  | zero =>
    intro l hl
    have : l = [] := List.eq_nil_of_length_eq_zero (Nat.le_zero.mp hl)
    subst this
    simp [chunksFuel]
  | succ k ih =>
    intro l hl
    cases l with
    | nil => simp [chunksFuel]
    | cons x xs =>
      rw [chunksFuel]
      · rw [List.flatten_cons]
        rw [ih ((x :: xs).drop 4096)
          (by simp only [List.length_drop, List.length_cons] at hl ⊢; omega)]
        exact List.take_append_drop 4096 (x :: xs)
      · simp

/-- The blocks of a byte list re-join to the byte list. -/
theorem chunks_join (l : List Nat) : (chunks l).flatten = l :=
  chunksFuel_join l.length l le_rfl

/-- The fingerprint is the digest of the full file content, truncated to 16
characters — the block-wise absorption changes nothing. -/
theorem calculate_rom_hash_eq (d : List Nat → String) (c : List Nat) :
    calculate_rom_hash d c = strTake 16 (d c) := by
  unfold calculate_rom_hash
  rw [foldl_append_join, List.nil_append, chunks_join]

/-- C10: loading P and then loading P again yields equal recorded
fingerprints across the two loads; the fingerprint is a deterministic
function of the file content — the SHA-256 digest of the full content
truncated to 16 characters — so any two paths with the same bytes get the
same fingerprint. -/
theorem C10_fingerprint_roundtrip (env : Env) (p q : String) (t1 t2 : Nat)
    (s : GameSession) (nid : Nat)
    (h1 : exIsOk (GameSession.load_rom env t1 s nid p).1 = true)
    (h2 : exIsOk (GameSession.load_rom env t2 (GameSession.load_rom env t1 s nid p).2.1
      (GameSession.load_rom env t1 s nid p).2.2 p).1 = true) :
    (GameSession.load_rom env t2 (GameSession.load_rom env t1 s nid p).2.1
        (GameSession.load_rom env t1 s nid p).2.2 p).2.1.current_rom_hash =
      (GameSession.load_rom env t1 s nid p).2.1.current_rom_hash ∧
      (GameSession.load_rom env t1 s nid p).2.1.current_rom_hash =
        some (strTake 16 (env.digest ((env.content p).getD []))) ∧
      (env.content q = env.content p → env.romHash q = env.romHash p) := by
  have ha := C4_load_success env t1 s nid p h1
  have hb := C4_load_success env t2 (GameSession.load_rom env t1 s nid p).2.1
    (GameSession.load_rom env t1 s nid p).2.2 p h2
  refine ⟨?_, ?_, ?_⟩
  · rw [ha.2.1, hb.2.1]
  · rw [ha.2.1]
    unfold Env.romHash
    rw [calculate_rom_hash_eq]
  · intro hc
    unfold Env.romHash
    rw [hc]

/-- C10 witness: two consecutive successful loads of `roms/a.gb` record the
same fingerprint, which equals the truncated digest of the file bytes. -/
theorem C10_witness :
    exIsOk (GameSession.load_rom demoEnv 0 GameSession.init 0 "roms/a.gb").1 = true ∧
      exIsOk (GameSession.load_rom demoEnv 4
        (GameSession.load_rom demoEnv 0 GameSession.init 0 "roms/a.gb").2.1
        (GameSession.load_rom demoEnv 0 GameSession.init 0 "roms/a.gb").2.2
        "roms/a.gb").1 = true ∧
      (GameSession.load_rom demoEnv 4
          (GameSession.load_rom demoEnv 0 GameSession.init 0 "roms/a.gb").2.1
          (GameSession.load_rom demoEnv 0 GameSession.init 0 "roms/a.gb").2.2
          "roms/a.gb").2.1.current_rom_hash =
        (GameSession.load_rom demoEnv 0 GameSession.init 0 "roms/a.gb").2.1.current_rom_hash ∧
      (GameSession.load_rom demoEnv 0 GameSession.init 0 "roms/a.gb").2.1.current_rom_hash =
        some (strTake 16 (demoEnv.digest ((demoEnv.content "roms/a.gb").getD []))) :=
  ⟨by decide, by decide,
    (C10_fingerprint_roundtrip demoEnv "roms/a.gb" "roms/a.gb" 0 4 GameSession.init 0
      (by decide) (by decide)).1,
    (C10_fingerprint_roundtrip demoEnv "roms/a.gb" "roms/a.gb" 0 4 GameSession.init 0
      (by decide) (by decide)).2.1⟩

end MCPPyBoy
